import Mathlib

/-
Verification of the SpeedTracker sensor-fusion engine (tracker app).

The engine is a single mutable object updated by accelerometer ticks
(updateMetrics), GPS fixes (handleGPSUpdate / performSensorFusion),
calibration (finishCalibration / recalibrateBias) and reset (confirmReset).
We embed the engine state as a record over exact rationals (JS numbers are
IEEE doubles; the control flow of the source only compares and combines
numbers by +, -, *, /, min, max, abs, so the rational embedding is faithful
branch-for-branch) and each method as a pure state-transformer.

Two real-valued operations of the source cannot land in ℚ and enter the
embedding as inputs instead:
  - the magnitude m = Math.sqrt(x*x + y*y + z*z) of applyFiltering is an
    input parameter of the embedded function (concrete instantiations use
    vectors whose squared norm is a perfect square, so m is exact);
  - the Haversine great-circle distance of calculateDistance is an oracle
    parameter (calcDist) of handleGPSUpdate.

Purely presentational code (DOM updates, chart drawing, audio, metric
history persistence, the launch/checkpoint event bookkeeping) is omitted:
it reads the fused state but never feeds back into it.
-/

/-! ### List helpers mirroring the JS array idioms of the source -/

/-- Insert a rational into an ascending-sorted list, keeping it sorted. -/
def insertSorted (a : ℚ) : List ℚ → List ℚ
  | [] => [a]
  | b :: t => if a ≤ b then a :: b :: t else b :: insertSorted a t

/-- Ascending sort, mirroring the JS idiom xs.sort((a, b) => a - b). -/
def sortAsc (l : List ℚ) : List ℚ := l.foldr insertSorted []

/-- Largest absolute difference of consecutive elements, mirroring
Math.max(...speeds.slice(1).map((s, i) => Math.abs(s - speeds[i]))).
All differences are nonnegative, so folding max with base 0 computes the
maximum whenever the list has at least two elements (the only way the
source reaches this expression). -/
def maxConsecutiveJump (l : List ℚ) : ℚ :=
  (List.zipWith (fun a b => |b - a|) l l.tail).foldr max 0

/-- The median selection used by the source: sort ascending and take the
element at index ⌊n / 2⌋ (JS: sorted[Math.floor(arr.length / 2)]). -/
def medianOfList (l : List ℚ) : ℚ :=
  (sortAsc l).getD (l.length / 2) 0

/-- The trimmed mean of applyFiltering: sort, drop
trimCount = ⌊n * 0.05⌋ entries from each end (JS slice(t, -t || undefined);
t = 0 keeps the whole list, as the slice end becomes undefined), then
average the rest. -/
def trimmedMean (l : List ℚ) : ℚ :=
  let sorted := sortAsc l
  let trimCount := sorted.length * 5 / 100
  let trimmed := (sorted.drop trimCount).take (sorted.length - 2 * trimCount)
  trimmed.sum / (trimmed.length : ℚ)

/-! ### Data model -/

/-- A three-axis value (bias-corrected acceleration, or a bias offset). -/
structure RawVec where
  x : ℚ
  y : ℚ
  z : ℚ
deriving DecidableEq

/-- Entry of this.accelerationBuffer: {magnitude, raw: {x, y, z}}.
(The source also stores a timestamp; no consumer of the buffer reads it.) -/
structure AccelEntry where
  magnitude : ℚ
  raw : RawVec
deriving DecidableEq

/-- Entry of this.gpsSpeedHistory / this.startupGpsReadings. -/
structure GpsReading where
  speed : ℚ
  accuracy : ℚ
  timestamp : ℚ
deriving DecidableEq

/-- A stored GPS position (this.lastGpsPosition.coords; only latitude and
longitude are read back by the source). -/
structure GpsPos where
  lat : ℚ
  lon : ℚ
deriving DecidableEq

/-- An incoming GPS fix: position.coords. A null speed is none; the
speed may also be negative. A null accuracy is none (the source applies
`position.coords.accuracy || 20`, so 0 also falls back to 20). -/
structure GpsFix where
  latitude : ℚ
  longitude : ℚ
  speed : Option ℚ
  accuracy : Option ℚ
deriving DecidableEq

/-- The mutable state of the SpeedTracker engine (constructor fields that
the fusion logic reads or writes). UI elements, chart data, metric
definitions/achievements, the legacy velocityConfidence, and the
launch-event buffers are omitted as presentation-only; launchDetected is
kept because the reset claim exposes it in the snapshot (it is written
only by the omitted event-detection layer). -/
structure SpeedTracker where
  isRunning : Bool
  isCalibrated : Bool
  runStartTime : ℚ
  velocity : ℚ
  distance : ℚ
  lastTimestamp : ℚ
  calibrationOffset : RawVec
  accelerationBuffer : List AccelEntry
  velocityBuffer : List ℚ
  isMoving : Bool
  stationaryTime : ℕ
  stationaryDuration : ℚ
  lastValidAcceleration : ℚ
  gpsSpeed : ℚ
  gpsLastUpdate : ℚ
  gpsAvailable : Bool
  lastGpsPosition : Option GpsPos
  gpsDistance : ℚ
  lastDriftCheckTime : ℚ
  consecutiveZeroGPS : ℕ
  fusedSpeed : ℚ
  speedEstimateUncertainty : ℚ
  gpsAccuracy : ℚ
  lastFusionTime : ℚ
  gpsSpeedHistory : List GpsReading
  gpsReliabilityScore : ℚ
  accelIntegratedSpeed : ℚ
  accelSpeedUncertainty : ℚ
  lastAccelTimestamp : ℚ
  startupComplete : Bool
  wasMovingAtStart : Bool
  startupGpsReadings : List GpsReading
  launchDetected : Bool
deriving DecidableEq

/-- this.motionThreshold = 0.5. -/
def motionThreshold : ℚ := 1/2

/-- this.noiseThreshold = 2.0. -/
def noiseThreshold : ℚ := 2

/-- this.accelDriftRate = 0.5. -/
def accelDriftRate : ℚ := 1/2

/-- this.gpsSpeedHistoryMaxSize = 10. -/
def gpsSpeedHistoryMaxSize : ℕ := 10

/-- The engine state right after the constructor runs (runStartTime is
null in the source until startRun; it is modelled as 0 and updateMetrics
is only applied to running states, matching the isRunning guard of
processSensorData). -/
def initialState : SpeedTracker where
  isRunning := false
  isCalibrated := false
  runStartTime := 0
  velocity := 0
  distance := 0
  lastTimestamp := 0
  calibrationOffset := ⟨0, 0, 0⟩
  accelerationBuffer := []
  velocityBuffer := []
  isMoving := false
  stationaryTime := 0
  stationaryDuration := 0
  lastValidAcceleration := 0
  gpsSpeed := 0
  gpsLastUpdate := 0
  gpsAvailable := false
  lastGpsPosition := none
  gpsDistance := 0
  lastDriftCheckTime := 0
  consecutiveZeroGPS := 0
  fusedSpeed := 0
  speedEstimateUncertainty := 10
  gpsAccuracy := 0
  lastFusionTime := 0
  gpsSpeedHistory := []
  gpsReliabilityScore := 0
  accelIntegratedSpeed := 0
  accelSpeedUncertainty := 0
  lastAccelTimestamp := 0
  startupComplete := false
  wasMovingAtStart := false
  startupGpsReadings := []
  launchDetected := false

/-! ### applyFiltering (C2 filter and motion gate)

applyFiltering(data) of the source computes
magnitude = Math.sqrt(x ** 2 + y ** 2 + z ** 2); the square root is
real-valued, so the magnitude m is an input of the embedding (concrete
instantiations pick v with a perfect-square norm). The function returns
the updated engine state, the filteredMagnitude handed to updateMetrics,
and the isMoving flag attached to the returned record: in the
noise-rejection branch the source returns {...data, filteredMagnitude}
with no isMoving property, which downstream reads as undefined, i.e.
false. -/
/-- The ring-buffer push of applyFiltering lines 493-501: append the new
magnitude and drop the oldest entry beyond 20. -/
def pushedBuffer (st : SpeedTracker) (v : RawVec) (m : ℚ) :
    List AccelEntry :=
  if (st.accelerationBuffer ++ [(⟨m, v⟩ : AccelEntry)]).length > 20
  then (st.accelerationBuffer ++ [(⟨m, v⟩ : AccelEntry)]).tail
  else st.accelerationBuffer ++ [(⟨m, v⟩ : AccelEntry)]

/-- The moving-average filter of applyFiltering lines 511-522: the
trimmed mean of the 10 most recent buffered magnitudes once at least 5
are buffered, else the raw magnitude. -/
def filteredMagnitudeOf (buf : List AccelEntry) (m : ℚ) : ℚ :=
  if 5 ≤ buf.length then
    trimmedMean ((buf.drop (buf.length - 10)).map (fun e => e.magnitude))
  else m

def applyFiltering (st : SpeedTracker) (v : RawVec) (m : ℚ) :
    SpeedTracker × ℚ × Bool :=
  let buf := pushedBuffer st v m
  let st1 := { st with accelerationBuffer := buf }
  if m > noiseThreshold * 5 then
    (st1, st1.lastValidAcceleration, false)
  else
    let filtered := filteredMagnitudeOf buf m
    let st2 :=
      if st1.isMoving = false ∧ filtered > motionThreshold * 2 then
        { st1 with isMoving := true, stationaryTime := 0 }
      else if st1.isMoving = true ∧ filtered < motionThreshold * (3/10) then
        let s := { st1 with stationaryTime := st1.stationaryTime + 1 }
        if s.stationaryTime > 50 then
          let s1 := { s with isMoving := false }
          if s1.isRunning = true then { s1 with velocity := 0 } else s1
        else s
      else if filtered < motionThreshold * (1/2) then
        { st1 with stationaryTime := st1.stationaryTime + 1 }
      else
        { st1 with stationaryTime := 0 }
    ({ st2 with lastValidAcceleration := filtered }, filtered, st2.isMoving)

/-! ### recalibrateBias (C1 bias re-calibration) -/

/-- recalibrateBias(): mean of the raw residuals stored in
accelerationBuffer, blended into the calibration offset at 10% per call.
Every modelled buffer entry carries a raw vector, so the count of the
source equals the buffer length (its count === 0 early return is
subsumed by the length < 5 one). -/
def recalibrateBias (st : SpeedTracker) : SpeedTracker :=
  if st.accelerationBuffer.length < 5 then st
  else
    let count : ℚ := st.accelerationBuffer.length
    let avgResidualX := (st.accelerationBuffer.map (fun e => e.raw.x)).sum / count
    let avgResidualY := (st.accelerationBuffer.map (fun e => e.raw.y)).sum / count
    let avgResidualZ := (st.accelerationBuffer.map (fun e => e.raw.z)).sum / count
    let blendFactor : ℚ := 1/10
    { st with calibrationOffset :=
        ⟨st.calibrationOffset.x + avgResidualX * blendFactor,
         st.calibrationOffset.y + avgResidualY * blendFactor,
         st.calibrationOffset.z + avgResidualZ * blendFactor⟩ }

/-! ### updateMetrics (accelerometer tick) -/

/-- The gpsReliable test of updateMetrics line 805: GPS present, newest
fix younger than 2 s, reliability score above 0.3. -/
def gpsReliable (st : SpeedTracker) (ts : ℚ) : Prop :=
  st.gpsAvailable = true ∧ (ts - st.gpsLastUpdate) / 1000 < 2 ∧
    3/10 < st.gpsReliabilityScore

instance (st : SpeedTracker) (ts : ℚ) : Decidable (gpsReliable st ts) := by
  unfold gpsReliable
  infer_instance

/-- Stationary accounting of updateMetrics lines 808-812: the value of
stationaryDuration after the tick updates it (fm is the filtered
magnitude, im the isMoving flag of the processed sample). -/
def stationaryDurationNext (st : SpeedTracker) (fm : ℚ) (im : Bool)
    (dt : ℚ) : ℚ :=
  if im = false ∧ fm < motionThreshold then st.stationaryDuration + dt else 0

/-- Accelerometer integration, updateMetrics lines 840-846. -/
def stepIntegrate (st : SpeedTracker) (fm : ℚ) (im : Bool) (dt : ℚ) :
    SpeedTracker :=
  if im = true ∧ fm > motionThreshold then
    { st with
      accelIntegratedSpeed := st.accelIntegratedSpeed + fm * dt
      speedEstimateUncertainty :=
        st.speedEstimateUncertainty + accelDriftRate * dt }
  else st

/-- Primary velocity source selection, updateMetrics lines 848-876. -/
def stepPrimary (st : SpeedTracker) (fm : ℚ) (im : Bool) (gpsRel : Prop)
    [Decidable gpsRel] :
    SpeedTracker :=
  if gpsRel then
    let gpsWeight := min (4/5) (1/2 + st.gpsReliabilityScore * (3/10))
    let v := gpsWeight * st.gpsSpeed + (1 - gpsWeight) * st.accelIntegratedSpeed
    let s := { st with velocity := v, fusedSpeed := v }
    if |s.accelIntegratedSpeed - s.gpsSpeed| > 2 then
      { s with accelIntegratedSpeed :=
          (7/10) * s.accelIntegratedSpeed + (3/10) * s.gpsSpeed }
    else s
  else
    let s := { st with
               velocity := st.accelIntegratedSpeed
               fusedSpeed := st.accelIntegratedSpeed }
    if im = false ∨ fm < motionThreshold * (1/2) then
      let v := s.velocity * (49/50)
      { s with velocity := v, accelIntegratedSpeed := v, fusedSpeed := v }
    else s

/-- Zero-speed anchoring check 1 (GPS says stopped), lines 882-888. -/
def stepZeroAnchor1 (st : SpeedTracker) (gpsRel : Prop) [Decidable gpsRel] (dt : ℚ) :
    SpeedTracker :=
  if gpsRel = true ∧ st.gpsSpeed < 3/10 ∧ 3 ≤ st.consecutiveZeroGPS then
    { st with
      velocity := 0
      fusedSpeed := 0
      accelIntegratedSpeed := 0
      velocityBuffer := []
      stationaryDuration := st.stationaryDuration + dt }
  else st

/-- Zero-speed anchoring check 2 (no acceleration, low velocity),
lines 891-902. -/
def stepZeroAnchor2 (st : SpeedTracker) (im : Bool) (gpsRel : Prop)
    [Decidable gpsRel] :
    SpeedTracker :=
  if im = false ∧ st.velocity < 2 then
    if gpsRel = true ∧ st.gpsSpeed < 1 then
      { st with velocity := 0, fusedSpeed := 0, accelIntegratedSpeed := 0 }
    else if st.velocity < 89/100 then
      { st with velocity := 0, fusedSpeed := 0, accelIntegratedSpeed := 0 }
    else st
  else st

/-- Periodic distance validation (check 3), lines 904-924: when more than
2 s have passed since the last drift check and the accelerometer distance
deviates from the GPS distance by more than 20 %, snap distance to the GPS
distance and, for a correction factor outside [0.8, 1.2], also snap the
three velocity estimates to the GPS speed. -/
def stepDriftCheck (st : SpeedTracker) (gpsRel : Prop) [Decidable gpsRel] (timeElapsed : ℚ) :
    SpeedTracker :=
  if timeElapsed - st.lastDriftCheckTime > 2 ∧ st.gpsDistance > 0 ∧
      st.distance > 5 then
    let distanceDiff := |st.distance - st.gpsDistance|
    let distanceError := if st.distance > 0 then distanceDiff / st.distance else 0
    let s :=
      if distanceError > 1/5 ∧ gpsRel then
        let correctionFactor := st.gpsDistance / max st.distance (1/10)
        let s1 := { st with distance := st.gpsDistance }
        let s2 := if correctionFactor < 4/5 ∨ correctionFactor > 6/5 then
            { s1 with
              velocity := s1.gpsSpeed
              fusedSpeed := s1.gpsSpeed
              accelIntegratedSpeed := s1.gpsSpeed }
          else s1
        { s2 with velocityBuffer := [] }
      else st
    { s with lastDriftCheckTime := timeElapsed }
  else st

/-- Display smoothing, lines 926-937: ring of the last 5 velocities; the
published velocity becomes the median once at least 3 are buffered. -/
def stepSmoothing (st : SpeedTracker) : SpeedTracker :=
  let buf0 := st.velocityBuffer ++ [st.velocity]
  let buf := if buf0.length > 5 then buf0.tail else buf0
  let s := { st with velocityBuffer := buf }
  if 3 ≤ buf.length then
    { s with velocity := (sortAsc buf).getD (buf.length / 2) 0 }
  else s

/-- Sanity cap and sign clamp, lines 939-947 (maxRealisticSpeed = 100). -/
def stepSanity (st : SpeedTracker) (gpsRel : Prop) [Decidable gpsRel] :
    SpeedTracker :=
  let s := if |st.velocity| > 100 then
      { st with velocity := if gpsRel then st.gpsSpeed else 0 }
    else st
  { s with
    velocity := max 0 s.velocity
    fusedSpeed := max 0 s.velocity
    accelIntegratedSpeed := max 0 s.accelIntegratedSpeed }

/-- Distance integration, lines 954-957. -/
def stepDistance (st : SpeedTracker) (dt : ℚ) : SpeedTracker :=
  if st.velocity > 1/2 then
    { st with distance := st.distance + st.velocity * dt }
  else st

/-- The ordinary-path tick pipeline: integration, primary estimate,
zero anchors, drift check, display smoothing, sanity cap and distance
integration, in the order of lines 836-957. -/
def tickPipeline (s : SpeedTracker) (fm : ℚ) (im : Bool) (g : Prop)
    [Decidable g] (te dt : ℚ) : SpeedTracker :=
  stepDistance
    (stepSanity
      (stepSmoothing
        (stepDriftCheck
          (stepZeroAnchor2
            (stepZeroAnchor1 (stepPrimary (stepIntegrate s fm im dt) fm im g)
              g dt)
            im g)
          g te))
      g)
    dt

/-- updateMetrics(sensorData), lines 770-1006: one accelerometer tick.
fm = sensorData.filteredMagnitude (the source reads it as
filteredMagnitude || 0, the identity on numbers), im = sensorData.isMoving,
ts = sensorData.timestamp in ms. Chart, display, launch detection and the
speed/distance checkpoint bookkeeping of lines 949-1002 are
presentation-only and omitted; runStartTime is assumed set (the function
is only invoked on a running engine). -/
def updateMetrics (st : SpeedTracker) (fm : ℚ) (im : Bool) (ts : ℚ) :
    SpeedTracker :=
  let timeElapsed := (ts - st.runStartTime) / 1000
  let dt0 := timeElapsed - st.lastTimestamp
  if dt0 ≤ 0 then st
  else if dt0 > 1/2 then
    -- large-gap path, lines 780-796: the app was backgrounded
    let s := if st.gpsAvailable = true ∧ 3/10 < st.gpsReliabilityScore then
        { st with
          velocity := st.gpsSpeed
          fusedSpeed := st.gpsSpeed
          accelIntegratedSpeed := st.gpsSpeed }
      else
        { st with velocity := 0, fusedSpeed := 0, accelIntegratedSpeed := 0 }
    { s with
      velocityBuffer := []
      speedEstimateUncertainty := 5
      lastTimestamp := timeElapsed }
  else
    let dt := min dt0 (1/10)
    let s1 : SpeedTracker :=
      { st with stationaryDuration := stationaryDurationNext st fm im dt }
    -- the source computes gpsReliable once at line 805; the steps below
    -- receive the same pure predicate gpsReliable st ts
    if s1.stationaryDuration > 3 ∧ (¬ gpsReliable st ts ∨ s1.gpsSpeed < 1/2) then
      -- forced-zero path, lines 815-834
      let s := recalibrateBias
        { s1 with
          velocity := 0
          fusedSpeed := 0
          accelIntegratedSpeed := 0
          velocityBuffer := []
          speedEstimateUncertainty := 1/2 }
      { s with lastTimestamp := timeElapsed }
    else
      let s9 := tickPipeline s1 fm im (gpsReliable st ts) timeElapsed dt
      { s9 with lastTimestamp := timeElapsed }

/-! ### performSensorFusion (GPS-fix Kalman-style update) -/

/-- performSensorFusion(now), lines 696-743. Called by handleGPSUpdate
after the reliability score and the consecutive-zero counter have been
refreshed. -/
def performSensorFusion (st : SpeedTracker) (now : ℚ) : SpeedTracker :=
  let dt := (now - st.lastFusionTime) / 1000
  if st.lastFusionTime = 0 ∨ dt ≤ 0 then { st with lastFusionTime := now }
  else
    let gpsSpeedUncertainty :=
      max (1/2) (st.gpsAccuracy * (1/20)) / st.gpsReliabilityScore
    let s1 := { st with accelSpeedUncertainty :=
        st.accelSpeedUncertainty + accelDriftRate * dt }
    let totalUncertainty := s1.speedEstimateUncertainty + gpsSpeedUncertainty
    let kalmanGain := s1.speedEstimateUncertainty / max totalUncertainty (1/10)
    let s2 := { s1 with
      fusedSpeed := s1.fusedSpeed + kalmanGain * (s1.gpsSpeed - s1.fusedSpeed)
      speedEstimateUncertainty :=
        (1 - kalmanGain) * s1.speedEstimateUncertainty }
    let s3 := if 3 ≤ s2.consecutiveZeroGPS ∧ s2.gpsSpeed < 1/2 ∧
        s2.gpsReliabilityScore > 1/2 then
        { s2 with
          fusedSpeed := 0
          accelIntegratedSpeed := 0
          speedEstimateUncertainty := 1/2
          velocity := 0 }
      else s2
    { s3 with
      velocity := max 0 s3.fusedSpeed
      accelIntegratedSpeed := s3.fusedSpeed
      accelSpeedUncertainty := gpsSpeedUncertainty
      lastFusionTime := now }

/-! ### GPS reliability and moving-start detection -/

/-- updateGpsReliability(), lines 663-693. The source reads
performance.now() for the staleness factor; handleGPSUpdate has just set
gpsLastUpdate to the same clock, so the wall time enters as now. -/
def updateGpsReliability (st : SpeedTracker) (now : ℚ) : SpeedTracker :=
  if st.gpsSpeedHistory.length < 2 then
    { st with gpsReliabilityScore := 3/10 }
  else
    let r0 : ℚ := 1
    let avgAccuracy := (st.gpsSpeedHistory.map (fun r => r.accuracy)).sum /
      (st.gpsSpeedHistory.length : ℚ)
    let r1 := if avgAccuracy > 50 then r0 * (3/10)
      else if avgAccuracy > 20 then r0 * (7/10)
      else if avgAccuracy > 10 then r0 * (9/10)
      else r0
    let r2 := if 3 ≤ st.gpsSpeedHistory.length then
        let maxJump := maxConsecutiveJump
          (st.gpsSpeedHistory.map (fun r => r.speed))
        if maxJump > 5 then r1 * (1/2)
        else if maxJump > 3 then r1 * (7/10)
        else r1
      else r1
    let timeSinceLast := (now - st.gpsLastUpdate) / 1000
    let r3 := if timeSinceLast > 3 then r2 * (1/2)
      else if timeSinceLast > 2 then r2 * (7/10)
      else r2
    { st with gpsReliabilityScore := max (1/10) (min 1 r3) }

/-- detectMovingStart(), lines 626-660. -/
def detectMovingStart (st : SpeedTracker) : SpeedTracker :=
  if st.startupComplete = true then st
  else
    let s0 : SpeedTracker := { st with startupComplete := true }
    let reliableReadings : List GpsReading := s0.startupGpsReadings.filter
      (fun r => decide (r.accuracy < 30))
    if reliableReadings.length = 0 then
      { s0 with wasMovingAtStart := false }
    else
      let avgSpeed := (reliableReadings.map (fun r => r.speed)).sum /
        (reliableReadings.length : ℚ)
      if avgSpeed > 2 then
        { s0 with
          wasMovingAtStart := true
          fusedSpeed := avgSpeed
          velocity := avgSpeed
          accelIntegratedSpeed := avgSpeed
          isCalibrated := true
          speedEstimateUncertainty := s0.gpsAccuracy * (1/10) }
      else
        { s0 with wasMovingAtStart := false }

/-! ### handleGPSUpdate (GPS fix ingestion) -/

/-- The block of handleGPSUpdate guarded by
position.coords.speed !== null && position.coords.speed >= 0
(lines 562-602): store the speed, run moving-start collection, push the
reliability history, refresh the score and the consecutive-zero counter,
and fuse. -/
def handleGPSSpeedBlock (st : SpeedTracker) (v : ℚ) (now : ℚ) :
    SpeedTracker :=
  let sA := { st with gpsSpeed := v, gpsAvailable := true }
  let sB := if sA.startupComplete = false then
      let s := { sA with startupGpsReadings :=
          sA.startupGpsReadings ++ [⟨sA.gpsSpeed, sA.gpsAccuracy, now⟩] }
      if 3 ≤ s.startupGpsReadings.length ∨
          (0 < s.startupGpsReadings.length ∧
            now - (s.startupGpsReadings.headD ⟨0, 0, 0⟩).timestamp > 2000) then
        detectMovingStart s
      else s
    else sA
  let sC := { sB with gpsSpeedHistory :=
      sB.gpsSpeedHistory ++ [⟨sB.gpsSpeed, sB.gpsAccuracy, now⟩] }
  let sD := if sC.gpsSpeedHistory.length > gpsSpeedHistoryMaxSize then
      { sC with gpsSpeedHistory := sC.gpsSpeedHistory.tail }
    else sC
  let sE := updateGpsReliability sD now
  let sF := if sE.gpsSpeed < 3/10 then
      { sE with consecutiveZeroGPS := sE.consecutiveZeroGPS + 1 }
    else { sE with consecutiveZeroGPS := 0 }
  performSensorFusion sF now

/-- handleGPSUpdate(position), lines 554-623. calcDist is the Haversine
calculateDistance of lines 745-754: it is real-valued (trigonometry and a
square root on a sphere of radius 6371000 m), so it enters the embedding
as an oracle taking lat1 lon1 lat2 lon2 to the computed distance. -/
def handleGPSUpdate (calcDist : ℚ → ℚ → ℚ → ℚ → ℚ) (st : SpeedTracker)
    (fix : GpsFix) (now : ℚ) : SpeedTracker :=
  let s0 := { st with
    gpsLastUpdate := now
    gpsAccuracy := match fix.accuracy with
      | none => 20
      | some a => if a = 0 then 20 else a }
  let s1 := match fix.speed with
    | some v => if 0 ≤ v then handleGPSSpeedBlock s0 v now else s0
    | none => s0
  let s2 := match s1.lastGpsPosition with
    | some p =>
      if s1.isRunning = true then
        let d := calcDist p.lat p.lon fix.latitude fix.longitude
        if 0 < d ∧ d < 100 then { s1 with gpsDistance := s1.gpsDistance + d }
        else s1
      else s1
    | none => s1
  { s2 with lastGpsPosition := some ⟨fix.latitude, fix.longitude⟩ }

/-! ### Calibration, stop and reset -/

/-- finishCalibration(calibrationData), lines 400-418: with strictly more
than 10 collected samples, set the offset to the per-axis median (sorted,
index ⌊n / 2⌋) and mark the engine calibrated; otherwise the state is
untouched (the remaining source lines only reset the calibration modal). -/
def finishCalibration (st : SpeedTracker) (calibrationData : List RawVec) :
    SpeedTracker :=
  if calibrationData.length > 10 then
    { st with
      calibrationOffset :=
        ⟨medianOfList (calibrationData.map (fun d => d.x)),
         medianOfList (calibrationData.map (fun d => d.y)),
         medianOfList (calibrationData.map (fun d => d.z))⟩
      isCalibrated := true }
  else st

/-- stopRun(), lines 350-371 (UI toggles, the GPS watcher teardown and
saveRun persistence omitted). -/
def stopRun (st : SpeedTracker) : SpeedTracker :=
  { st with
    isRunning := false
    startupComplete := false
    wasMovingAtStart := false
    startupGpsReadings := []
    gpsSpeedHistory := [] }

/-- confirmReset(), lines 1523-1557 (metric history, localStorage and
chart clearing omitted as presentation/persistence). -/
def confirmReset (st : SpeedTracker) : SpeedTracker :=
  let s := if st.isRunning = true then stopRun st else st
  { s with
    velocity := 0
    fusedSpeed := 0
    accelIntegratedSpeed := 0
    speedEstimateUncertainty := 10
    accelSpeedUncertainty := 0
    distance := 0
    gpsDistance := 0 }

/-- The polled output snapshot of §6: published speed, distance, moving,
launched, calibrated, reliability score and σ. (gps_reliable is derived
from the state and the poll time by gpsReliableB and is therefore not a
stored field.) -/
structure Snapshot where
  speed : ℚ
  distance : ℚ
  moving : Bool
  launched : Bool
  calibrated : Bool
  gpsReliabilityScore : ℚ
  uncertainty : ℚ
deriving DecidableEq

/-- Read the snapshot off an engine state. -/
def snapshot (st : SpeedTracker) : Snapshot :=
  ⟨st.velocity, st.distance, st.isMoving, st.launchDetected, st.isCalibrated,
   st.gpsReliabilityScore, st.speedEstimateUncertainty⟩


/-! ### Concrete states and inputs used by the claim-level theorems -/

/-- The exact condition under which an accelerometer tick executes the
distance-reconciliation snap distance := gpsDistance of lines 905-924:
the ordinary path is reached (positive dt, no 0.5 s gap, no forced zero)
and the 2 s drift-check window is open with gpsDistance > 0,
distance > 5 m, relative error above 20 % and reliable GPS. -/
def driftSnapFires (st : SpeedTracker) (fm : ℚ) (im : Bool) (ts : ℚ) :
    Prop :=
  0 < (ts - st.runStartTime) / 1000 - st.lastTimestamp ∧
  (ts - st.runStartTime) / 1000 - st.lastTimestamp ≤ 1/2 ∧
  ¬ (stationaryDurationNext st fm im
      (min ((ts - st.runStartTime) / 1000 - st.lastTimestamp) (1/10)) > 3 ∧
    (¬ gpsReliable st ts ∨ st.gpsSpeed < 1/2)) ∧
  (ts - st.runStartTime) / 1000 - st.lastDriftCheckTime > 2 ∧
  st.gpsDistance > 0 ∧ st.distance > 5 ∧
  |st.distance - st.gpsDistance| / st.distance > 1/5 ∧
  gpsReliable st ts

def cexSpeedCapState : SpeedTracker :=
  { initialState with
    isRunning := true
    gpsAvailable := true
    gpsReliabilityScore := 1
    gpsSpeed := 150
    gpsLastUpdate := 50
    accelIntegratedSpeed := 200 }

def cexDistanceSnapState : SpeedTracker :=
  { initialState with
    isRunning := true
    lastTimestamp := 51/20
    distance := 10
    gpsDistance := 1
    gpsAvailable := true
    gpsReliabilityScore := 1
    gpsSpeed := 3
    gpsLastUpdate := 2600
    accelIntegratedSpeed := 3 }

def witHardZeroState : SpeedTracker :=
  { initialState with
    isRunning := true
    stationaryDuration := 4 }

def cexSigmaState : SpeedTracker :=
  { initialState with
    speedEstimateUncertainty := 3/25
    gpsReliabilityScore := 1
    gpsAccuracy := 5
    gpsSpeed := 1
    fusedSpeed := 1
    lastFusionTime := 1000 }

def cexFusionAnchorState : SpeedTracker :=
  { initialState with
    lastFusionTime := 1000
    gpsReliabilityScore := 1
    gpsAccuracy := 5
    speedEstimateUncertainty := 1
    fusedSpeed := 1/4
    gpsSpeed := 1/5
    consecutiveZeroGPS := 3 }

def witFusionState : SpeedTracker :=
  { initialState with
    lastFusionTime := 1000
    gpsReliabilityScore := 1
    gpsAccuracy := 5
    speedEstimateUncertainty := 1
    fusedSpeed := 10
    gpsSpeed := 12 }

def cexTenSamples : List RawVec := List.replicate 10 ⟨1, 1, 1⟩

def witCalibrationData : List RawVec := List.replicate 11 ⟨1, 2, 3⟩

def cexStaleGpsState : SpeedTracker :=
  { initialState with
    isRunning := true
    lastTimestamp := 10
    gpsAvailable := true
    gpsReliabilityScore := 3/5
    gpsSpeed := 20
    gpsLastUpdate := 0 }

def witGapState : SpeedTracker :=
  { initialState with isRunning := true }

def cexResetState : SpeedTracker :=
  finishCalibration initialState (List.replicate 11 ⟨1, 2, 3⟩)

def witInvalidFixState : SpeedTracker :=
  { initialState with
    isRunning := true
    gpsAvailable := true
    gpsReliabilityScore := 1/2
    gpsSpeed := 9
    lastGpsPosition := some ⟨0, 0⟩ }

def witCalcDist : ℚ → ℚ → ℚ → ℚ → ℚ := fun _ _ _ _ => 7

def witInvalidFix : GpsFix := ⟨1, 1, none, some 5⟩

/-! ### Frame lemmas: which fields each tick step leaves untouched -/

theorem recalibrateBias_velocity (st : SpeedTracker) :
    (recalibrateBias st).velocity = st.velocity := by
  simp only [recalibrateBias]
  split_ifs <;> rfl

theorem recalibrateBias_fusedSpeed (st : SpeedTracker) :
    (recalibrateBias st).fusedSpeed = st.fusedSpeed := by
  simp only [recalibrateBias]
  split_ifs <;> rfl

theorem recalibrateBias_accelIntegratedSpeed (st : SpeedTracker) :
    (recalibrateBias st).accelIntegratedSpeed = st.accelIntegratedSpeed := by
  simp only [recalibrateBias]
  split_ifs <;> rfl

theorem recalibrateBias_uncertainty (st : SpeedTracker) :
    (recalibrateBias st).speedEstimateUncertainty =
      st.speedEstimateUncertainty := by
  simp only [recalibrateBias]
  split_ifs <;> rfl

theorem recalibrateBias_distance (st : SpeedTracker) :
    (recalibrateBias st).distance = st.distance := by
  simp only [recalibrateBias]
  split_ifs <;> rfl

/-- The recalibrated offset only depends on the offset and the
acceleration buffer. -/
theorem recalibrateBias_offset_congr (s t : SpeedTracker)
    (hb : s.accelerationBuffer = t.accelerationBuffer)
    (ho : s.calibrationOffset = t.calibrationOffset) :
    (recalibrateBias s).calibrationOffset =
      (recalibrateBias t).calibrationOffset := by
  simp only [recalibrateBias, hb, ho]
  split_ifs with hl
  · exact ho
  · rfl

theorem stepIntegrate_gpsSpeed (st : SpeedTracker) (fm : ℚ) (im : Bool)
    (dt : ℚ) : (stepIntegrate st fm im dt).gpsSpeed = st.gpsSpeed := by
  simp only [stepIntegrate]
  split_ifs <;> rfl

theorem stepIntegrate_distance (st : SpeedTracker) (fm : ℚ) (im : Bool)
    (dt : ℚ) : (stepIntegrate st fm im dt).distance = st.distance := by
  simp only [stepIntegrate]
  split_ifs <;> rfl

theorem stepIntegrate_uncertainty_pos (st : SpeedTracker) (fm : ℚ)
    (im : Bool) (dt : ℚ) (hs : 0 < st.speedEstimateUncertainty)
    (hdt : 0 ≤ dt) :
    0 < (stepIntegrate st fm im dt).speedEstimateUncertainty := by
  simp only [stepIntegrate, accelDriftRate]
  split_ifs with h
  · simp only
    nlinarith [h.2]
  · exact hs

theorem stepPrimary_gpsSpeed (st : SpeedTracker) (fm : ℚ) (im : Bool)
    (g : Prop) [Decidable g] :
    (stepPrimary st fm im g).gpsSpeed = st.gpsSpeed := by
  simp only [stepPrimary]
  split_ifs <;> rfl

theorem stepPrimary_distance (st : SpeedTracker) (fm : ℚ) (im : Bool)
    (g : Prop) [Decidable g] :
    (stepPrimary st fm im g).distance = st.distance := by
  simp only [stepPrimary]
  split_ifs <;> rfl

theorem stepPrimary_uncertainty (st : SpeedTracker) (fm : ℚ) (im : Bool)
    (g : Prop) [Decidable g] :
    (stepPrimary st fm im g).speedEstimateUncertainty =
      st.speedEstimateUncertainty := by
  simp only [stepPrimary]
  split_ifs <;> rfl

theorem stepZeroAnchor1_gpsSpeed (st : SpeedTracker) (g : Prop)
    [Decidable g] (dt : ℚ) :
    (stepZeroAnchor1 st g dt).gpsSpeed = st.gpsSpeed := by
  simp only [stepZeroAnchor1]
  split_ifs <;> rfl

theorem stepZeroAnchor1_distance (st : SpeedTracker) (g : Prop)
    [Decidable g] (dt : ℚ) :
    (stepZeroAnchor1 st g dt).distance = st.distance := by
  simp only [stepZeroAnchor1]
  split_ifs <;> rfl

theorem stepZeroAnchor1_uncertainty (st : SpeedTracker) (g : Prop)
    [Decidable g] (dt : ℚ) :
    (stepZeroAnchor1 st g dt).speedEstimateUncertainty =
      st.speedEstimateUncertainty := by
  simp only [stepZeroAnchor1]
  split_ifs <;> rfl

theorem stepZeroAnchor2_gpsSpeed (st : SpeedTracker) (im : Bool) (g : Prop)
    [Decidable g] : (stepZeroAnchor2 st im g).gpsSpeed = st.gpsSpeed := by
  simp only [stepZeroAnchor2]
  split_ifs <;> rfl

theorem stepZeroAnchor2_distance (st : SpeedTracker) (im : Bool) (g : Prop)
    [Decidable g] : (stepZeroAnchor2 st im g).distance = st.distance := by
  simp only [stepZeroAnchor2]
  split_ifs <;> rfl

theorem stepZeroAnchor2_uncertainty (st : SpeedTracker) (im : Bool)
    (g : Prop) [Decidable g] :
    (stepZeroAnchor2 st im g).speedEstimateUncertainty =
      st.speedEstimateUncertainty := by
  simp only [stepZeroAnchor2]
  split_ifs <;> rfl

theorem stepDriftCheck_gpsSpeed (st : SpeedTracker) (g : Prop)
    [Decidable g] (te : ℚ) :
    (stepDriftCheck st g te).gpsSpeed = st.gpsSpeed := by
  simp only [stepDriftCheck]
  split_ifs <;> rfl

theorem stepDriftCheck_uncertainty (st : SpeedTracker) (g : Prop)
    [Decidable g] (te : ℚ) :
    (stepDriftCheck st g te).speedEstimateUncertainty =
      st.speedEstimateUncertainty := by
  simp only [stepDriftCheck]
  split_ifs <;> rfl

/-- Unless the reconciliation snap fires (the 20 % relative-error branch
together with reliable GPS, inside the 2 s / both-distances-positive
window), the drift check leaves distance unchanged. -/
theorem stepDriftCheck_distance (st : SpeedTracker) (g : Prop)
    [Decidable g] (te : ℚ)
    (h : ¬ (te - st.lastDriftCheckTime > 2 ∧ st.gpsDistance > 0 ∧
      st.distance > 5 ∧ |st.distance - st.gpsDistance| / st.distance > 1/5 ∧
      g)) :
    (stepDriftCheck st g te).distance = st.distance := by
  simp only [stepDriftCheck]
  split_ifs with h1 h2 h3 h4 h5 h6 <;> try rfl
  · exact absurd ⟨h1.1, h1.2.1, h1.2.2, h3.1, h3.2⟩ h
  · exact absurd ⟨h1.1, h1.2.1, h1.2.2, h3.1, h3.2⟩ h
  · exact absurd h5.1 (by norm_num)
  · exact absurd h5.1 (by norm_num)

theorem stepSmoothing_gpsSpeed (st : SpeedTracker) :
    (stepSmoothing st).gpsSpeed = st.gpsSpeed := by
  simp only [stepSmoothing]
  split_ifs <;> rfl

theorem stepSmoothing_distance (st : SpeedTracker) :
    (stepSmoothing st).distance = st.distance := by
  simp only [stepSmoothing]
  split_ifs <;> rfl

theorem stepSmoothing_uncertainty (st : SpeedTracker) :
    (stepSmoothing st).speedEstimateUncertainty =
      st.speedEstimateUncertainty := by
  simp only [stepSmoothing]
  split_ifs <;> rfl

theorem stepSanity_distance (st : SpeedTracker) (g : Prop) [Decidable g] :
    (stepSanity st g).distance = st.distance := by
  simp only [stepSanity]
  split_ifs <;> rfl

theorem stepSanity_uncertainty (st : SpeedTracker) (g : Prop)
    [Decidable g] :
    (stepSanity st g).speedEstimateUncertainty =
      st.speedEstimateUncertainty := by
  simp only [stepSanity]
  split_ifs <;> rfl

/-- After the sanity cap the published velocity is clamped into [0, 100]
whenever the stored GPS speed lies in [0, 100]. -/
theorem stepSanity_velocity_bounds (st : SpeedTracker) (g : Prop)
    [Decidable g] (h1 : st.gpsSpeed ≤ 100) :
    0 ≤ (stepSanity st g).velocity ∧ (stepSanity st g).velocity ≤ 100 := by
  simp only [stepSanity]
  split_ifs with hcap hg
  · constructor
    · exact le_max_left 0 _
    · simp only [max_le_iff]
      exact ⟨by norm_num, h1⟩
  · constructor
    · exact le_max_left 0 _
    · simp only [max_le_iff]
      norm_num
  · constructor
    · exact le_max_left 0 _
    · simp only [max_le_iff]
      refine ⟨by norm_num, ?_⟩
      have := abs_le.mp (not_lt.mp hcap)
      exact this.2

theorem stepDistance_velocity (st : SpeedTracker) (dt : ℚ) :
    (stepDistance st dt).velocity = st.velocity := by
  simp only [stepDistance]
  split_ifs <;> rfl

theorem stepDistance_gpsSpeed (st : SpeedTracker) (dt : ℚ) :
    (stepDistance st dt).gpsSpeed = st.gpsSpeed := by
  simp only [stepDistance]
  split_ifs <;> rfl

theorem stepDistance_uncertainty (st : SpeedTracker) (dt : ℚ) :
    (stepDistance st dt).speedEstimateUncertainty =
      st.speedEstimateUncertainty := by
  simp only [stepDistance]
  split_ifs <;> rfl

theorem stepDistance_mono (st : SpeedTracker) (dt : ℚ) (hdt : 0 ≤ dt) :
    st.distance ≤ (stepDistance st dt).distance := by
  simp only [stepDistance]
  split_ifs with h
  · simp only
    nlinarith
  · exact le_rfl

theorem stepDistance_of_slow (st : SpeedTracker) (dt : ℚ)
    (h : st.velocity ≤ 1/2) : (stepDistance st dt).distance = st.distance := by
  simp only [stepDistance]
  rw [if_neg (by linarith)]

/-! ### Path lemmas for updateMetrics -/

/-- A tick with nonpositive dt is a no-op (line 776). -/
theorem updateMetrics_noop_eq (st : SpeedTracker) (fm : ℚ) (im : Bool)
    (ts : ℚ) (h : (ts - st.runStartTime) / 1000 - st.lastTimestamp ≤ 0) :
    updateMetrics st fm im ts = st := by
  simp only [updateMetrics]
  rw [if_pos h]

/-- Unfolding of the forced-zero path (lines 815-834). -/
theorem updateMetrics_hardZero_eq (st : SpeedTracker) (fm : ℚ) (im : Bool)
    (ts : ℚ)
    (h1 : 0 < (ts - st.runStartTime) / 1000 - st.lastTimestamp)
    (h2 : ¬ ((ts - st.runStartTime) / 1000 - st.lastTimestamp > 1/2))
    (h3 : stationaryDurationNext st fm im
        (min ((ts - st.runStartTime) / 1000 - st.lastTimestamp) (1/10)) > 3)
    (h4 : ¬ gpsReliable st ts ∨ st.gpsSpeed < 1/2) :
    updateMetrics st fm im ts =
      { recalibrateBias
          { st with
            stationaryDuration := stationaryDurationNext st fm im
              (min ((ts - st.runStartTime) / 1000 - st.lastTimestamp) (1/10))
            velocity := 0
            fusedSpeed := 0
            accelIntegratedSpeed := 0
            velocityBuffer := []
            speedEstimateUncertainty := 1/2 }
        with lastTimestamp := (ts - st.runStartTime) / 1000 } := by
  simp only [updateMetrics]
  rw [if_neg (by linarith), if_neg h2, if_pos ⟨h3, h4⟩]

/-- Unfolding of the ordinary tick path (no early return). -/
theorem updateMetrics_main_eq (st : SpeedTracker) (fm : ℚ) (im : Bool)
    (ts : ℚ)
    (h1 : 0 < (ts - st.runStartTime) / 1000 - st.lastTimestamp)
    (h2 : ¬ ((ts - st.runStartTime) / 1000 - st.lastTimestamp > 1/2))
    (h3 : ¬ (stationaryDurationNext st fm im
        (min ((ts - st.runStartTime) / 1000 - st.lastTimestamp) (1/10)) > 3 ∧
        (¬ gpsReliable st ts ∨ st.gpsSpeed < 1/2))) :
    updateMetrics st fm im ts =
      { tickPipeline
          { st with
            stationaryDuration :=
              stationaryDurationNext st fm im
                (min ((ts - st.runStartTime) / 1000 - st.lastTimestamp)
                  (1/10)) }
          fm im (gpsReliable st ts) ((ts - st.runStartTime) / 1000)
          (min ((ts - st.runStartTime) / 1000 - st.lastTimestamp) (1/10)) with
        lastTimestamp := (ts - st.runStartTime) / 1000 } := by
  simp only [updateMetrics]
  rw [if_neg (by linarith), if_neg h2, if_neg h3]

theorem stepIntegrate_lastDriftCheckTime (st : SpeedTracker) (fm : ℚ)
    (im : Bool) (dt : ℚ) :
    (stepIntegrate st fm im dt).lastDriftCheckTime = st.lastDriftCheckTime := by
  simp only [stepIntegrate]
  split_ifs <;> rfl

theorem stepIntegrate_gpsDistance (st : SpeedTracker) (fm : ℚ) (im : Bool)
    (dt : ℚ) : (stepIntegrate st fm im dt).gpsDistance = st.gpsDistance := by
  simp only [stepIntegrate]
  split_ifs <;> rfl

theorem stepPrimary_lastDriftCheckTime (st : SpeedTracker) (fm : ℚ)
    (im : Bool) (g : Prop) [Decidable g] :
    (stepPrimary st fm im g).lastDriftCheckTime = st.lastDriftCheckTime := by
  simp only [stepPrimary]
  split_ifs <;> rfl

theorem stepPrimary_gpsDistance (st : SpeedTracker) (fm : ℚ) (im : Bool)
    (g : Prop) [Decidable g] :
    (stepPrimary st fm im g).gpsDistance = st.gpsDistance := by
  simp only [stepPrimary]
  split_ifs <;> rfl

theorem stepZeroAnchor1_lastDriftCheckTime (st : SpeedTracker) (g : Prop)
    [Decidable g] (dt : ℚ) :
    (stepZeroAnchor1 st g dt).lastDriftCheckTime = st.lastDriftCheckTime := by
  simp only [stepZeroAnchor1]
  split_ifs <;> rfl

theorem stepZeroAnchor1_gpsDistance (st : SpeedTracker) (g : Prop)
    [Decidable g] (dt : ℚ) :
    (stepZeroAnchor1 st g dt).gpsDistance = st.gpsDistance := by
  simp only [stepZeroAnchor1]
  split_ifs <;> rfl

theorem stepZeroAnchor2_lastDriftCheckTime (st : SpeedTracker) (im : Bool)
    (g : Prop) [Decidable g] :
    (stepZeroAnchor2 st im g).lastDriftCheckTime = st.lastDriftCheckTime := by
  simp only [stepZeroAnchor2]
  split_ifs <;> rfl

theorem stepZeroAnchor2_gpsDistance (st : SpeedTracker) (im : Bool)
    (g : Prop) [Decidable g] :
    (stepZeroAnchor2 st im g).gpsDistance = st.gpsDistance := by
  simp only [stepZeroAnchor2]
  split_ifs <;> rfl

/-- Distance behaviour of the ordinary tick pipeline: if the
reconciliation snap cannot fire, distance never decreases, and it changes
at all only when the final published velocity exceeds 0.5 m/s. -/
theorem tickPipeline_distance (s : SpeedTracker) (fm : ℚ) (im : Bool)
    (g : Prop) [Decidable g] (te dt : ℚ) (hdt : 0 ≤ dt)
    (hs : ¬ (te - s.lastDriftCheckTime > 2 ∧ s.gpsDistance > 0 ∧
      s.distance > 5 ∧ |s.distance - s.gpsDistance| / s.distance > 1/5 ∧ g)) :
    s.distance ≤ (tickPipeline s fm im g te dt).distance ∧
      ((tickPipeline s fm im g te dt).velocity ≤ 1/2 →
        (tickPipeline s fm im g te dt).distance = s.distance) := by
  have e5d : (stepZeroAnchor2 (stepZeroAnchor1 (stepPrimary (stepIntegrate s
      fm im dt) fm im g) g dt) im g).distance = s.distance := by
    rw [stepZeroAnchor2_distance, stepZeroAnchor1_distance,
      stepPrimary_distance, stepIntegrate_distance]
  have e5l : (stepZeroAnchor2 (stepZeroAnchor1 (stepPrimary (stepIntegrate s
      fm im dt) fm im g) g dt) im g).lastDriftCheckTime =
      s.lastDriftCheckTime := by
    rw [stepZeroAnchor2_lastDriftCheckTime, stepZeroAnchor1_lastDriftCheckTime,
      stepPrimary_lastDriftCheckTime, stepIntegrate_lastDriftCheckTime]
  have e5g : (stepZeroAnchor2 (stepZeroAnchor1 (stepPrimary (stepIntegrate s
      fm im dt) fm im g) g dt) im g).gpsDistance = s.gpsDistance := by
    rw [stepZeroAnchor2_gpsDistance, stepZeroAnchor1_gpsDistance,
      stepPrimary_gpsDistance, stepIntegrate_gpsDistance]
  have hs5 : ¬ (te - (stepZeroAnchor2 (stepZeroAnchor1 (stepPrimary
      (stepIntegrate s fm im dt) fm im g) g dt) im g).lastDriftCheckTime > 2 ∧
      (stepZeroAnchor2 (stepZeroAnchor1 (stepPrimary (stepIntegrate s fm im
        dt) fm im g) g dt) im g).gpsDistance > 0 ∧
      (stepZeroAnchor2 (stepZeroAnchor1 (stepPrimary (stepIntegrate s fm im
        dt) fm im g) g dt) im g).distance > 5 ∧
      |(stepZeroAnchor2 (stepZeroAnchor1 (stepPrimary (stepIntegrate s fm im
        dt) fm im g) g dt) im g).distance -
        (stepZeroAnchor2 (stepZeroAnchor1 (stepPrimary (stepIntegrate s fm im
          dt) fm im g) g dt) im g).gpsDistance| /
        (stepZeroAnchor2 (stepZeroAnchor1 (stepPrimary (stepIntegrate s fm im
          dt) fm im g) g dt) im g).distance > 1/5 ∧ g) := by
    rw [e5d, e5l, e5g]
    exact hs
  have h8 : (stepSanity (stepSmoothing (stepDriftCheck (stepZeroAnchor2
      (stepZeroAnchor1 (stepPrimary (stepIntegrate s fm im dt) fm im g) g dt)
      im g) g te)) g).distance = s.distance := by
    rw [stepSanity_distance, stepSmoothing_distance,
      stepDriftCheck_distance _ _ _ hs5, e5d]
  constructor
  · calc s.distance
        = (stepSanity (stepSmoothing (stepDriftCheck (stepZeroAnchor2
            (stepZeroAnchor1 (stepPrimary (stepIntegrate s fm im dt) fm im g)
            g dt) im g) g te)) g).distance := h8.symm
      _ ≤ _ := stepDistance_mono _ dt hdt
  · intro hv
    rw [tickPipeline] at hv ⊢
    rw [stepDistance_velocity] at hv
    rw [stepDistance_of_slow _ _ hv, h8]

/-! ### Claim C1: speed bounds at the end of every tick -/

/-- C1 (amended): at the end of every accelerometer tick the published
speed satisfies 0 ≤ speed, and it also satisfies speed ≤ V_max = 100 m/s
provided the stored GPS speed is itself within [0, 100] (and the pre-tick
speed was within bounds, which covers the no-op dt ≤ 0 return). The
unconditional bound of the claim fails: the sanity cap resets an
out-of-range speed to the raw v_gps, which the engine never caps.
When |v_fused| exceeds 100 during the tick it is indeed reset to v_gps if
GPS is reliable and to 0 otherwise, and the final value is clamped
non-negative (stepSanity). -/
theorem updateMetrics_speed_bounds (st : SpeedTracker) (fm : ℚ) (im : Bool)
    (ts : ℚ) (hv0 : 0 ≤ st.velocity) (hv1 : st.velocity ≤ 100)
    (hg0 : 0 ≤ st.gpsSpeed) (hg1 : st.gpsSpeed ≤ 100) :
    0 ≤ (updateMetrics st fm im ts).velocity ∧
      (updateMetrics st fm im ts).velocity ≤ 100 := by
  by_cases hA : (ts - st.runStartTime) / 1000 - st.lastTimestamp ≤ 0
  · rw [updateMetrics_noop_eq st fm im ts hA]
    exact ⟨hv0, hv1⟩
  by_cases hB : (ts - st.runStartTime) / 1000 - st.lastTimestamp > 1/2
  · simp only [updateMetrics]
    rw [if_neg hA, if_pos hB]
    split_ifs with hg
    · exact ⟨hg0, hg1⟩
    · norm_num
  by_cases hC : stationaryDurationNext st fm im
      (min ((ts - st.runStartTime) / 1000 - st.lastTimestamp) (1/10)) > 3 ∧
      (¬ gpsReliable st ts ∨ st.gpsSpeed < 1/2)
  · rw [updateMetrics_hardZero_eq st fm im ts (by linarith) hB hC.1 hC.2]
    dsimp only
    rw [recalibrateBias_velocity]
    norm_num
  · rw [updateMetrics_main_eq st fm im ts (by linarith) hB hC]
    dsimp only
    rw [tickPipeline, stepDistance_velocity]
    apply stepSanity_velocity_bounds
    rw [stepSmoothing_gpsSpeed, stepDriftCheck_gpsSpeed,
      stepZeroAnchor2_gpsSpeed, stepZeroAnchor1_gpsSpeed, stepPrimary_gpsSpeed,
      stepIntegrate_gpsSpeed]
    exact hg1

/-! ### Claim C2: distance monotonicity -/

/-- C2 (amended): on every accelerometer tick on which the
distance-reconciliation snap does not fire, the accumulated distance is
monotonically non-decreasing, and it changes at all only when the
published speed exceeds 0.5 m/s. Unconditional monotonicity fails: the
snap overwrites distance with the (possibly much smaller) GPS distance,
see the counterexample. -/
theorem updateMetrics_distance_monotone (st : SpeedTracker) (fm : ℚ)
    (im : Bool) (ts : ℚ) (h : ¬ driftSnapFires st fm im ts) :
    st.distance ≤ (updateMetrics st fm im ts).distance ∧
      ((updateMetrics st fm im ts).velocity ≤ 1/2 →
        (updateMetrics st fm im ts).distance = st.distance) := by
  by_cases hA : (ts - st.runStartTime) / 1000 - st.lastTimestamp ≤ 0
  · rw [updateMetrics_noop_eq st fm im ts hA]
    exact ⟨le_rfl, fun _ => rfl⟩
  by_cases hB : (ts - st.runStartTime) / 1000 - st.lastTimestamp > 1/2
  · simp only [updateMetrics]
    rw [if_neg hA, if_pos hB]
    split_ifs with hg <;> exact ⟨le_rfl, fun _ => rfl⟩
  by_cases hC : stationaryDurationNext st fm im
      (min ((ts - st.runStartTime) / 1000 - st.lastTimestamp) (1/10)) > 3 ∧
      (¬ gpsReliable st ts ∨ st.gpsSpeed < 1/2)
  · rw [updateMetrics_hardZero_eq st fm im ts (by linarith) hB hC.1 hC.2]
    constructor
    · dsimp only
      rw [recalibrateBias_distance]
    · intro hv
      dsimp only
      rw [recalibrateBias_distance]
  · rw [updateMetrics_main_eq st fm im ts (by linarith) hB hC]
    have hdt : 0 ≤ min ((ts - st.runStartTime) / 1000 - st.lastTimestamp)
        (1/10) := le_min (by linarith) (by norm_num)
    dsimp only
    exact tickPipeline_distance
      { st with
        stationaryDuration := stationaryDurationNext st fm im
          (min ((ts - st.runStartTime) / 1000 - st.lastTimestamp) (1/10)) }
      fm im (gpsReliable st ts) ((ts - st.runStartTime) / 1000)
      (min ((ts - st.runStartTime) / 1000 - st.lastTimestamp) (1/10)) hdt
      (fun hc => h ⟨by linarith, by linarith, hC, hc.1, hc.2.1, hc.2.2.1,
        hc.2.2.2.1, hc.2.2.2.2⟩)

/-- C1 counterexample: a reliable-GPS tick whose stored GPS speed is
150 m/s ends with published speed 150 > V_max = 100: the sanity cap of
lines 939-943 resets the over-limit blend 160.03 to v_gps = 150, and the
claimed invariant speed ≤ V_max is violated. -/
theorem speedCap_exceeds_vmax_counterexample :
    ¬ ((updateMetrics cexSpeedCapState 3 true 50).velocity ≤ 100) := by
  norm_num [cexSpeedCapState, initialState, updateMetrics, gpsReliable,
    tickPipeline, stationaryDurationNext, stepIntegrate, stepPrimary,
    stepZeroAnchor1, stepZeroAnchor2, stepDriftCheck, stepSmoothing,
    stepSanity, stepDistance, motionThreshold, accelDriftRate, sortAsc,
    insertSorted, max_def, min_def, abs]

/-- C1 witness: the bounds theorem applied to the freshly constructed
state at a concrete tick. -/
theorem updateMetrics_speed_bounds_witness :
    0 ≤ (updateMetrics initialState 3 true 50).velocity ∧
      (updateMetrics initialState 3 true 50).velocity ≤ 100 :=
  updateMetrics_speed_bounds initialState 3 true 50
    (by norm_num [initialState]) (by norm_num [initialState])
    (by norm_num [initialState]) (by norm_num [initialState])

/-- C2 counterexample: a tick in the drift-check window with
distance = 10 m, gpsDistance = 1 m and reliable GPS snaps distance down
to 1 m (then integrates 0.15 m), so distance decreases from 10 to 1.15
and monotonic non-decrease is violated. -/
theorem distance_decreases_counterexample :
    ¬ (cexDistanceSnapState.distance ≤
        (updateMetrics cexDistanceSnapState 3 true 2600).distance) := by
  norm_num [cexDistanceSnapState, initialState, updateMetrics, gpsReliable,
    tickPipeline, stationaryDurationNext, stepIntegrate, stepPrimary,
    stepZeroAnchor1, stepZeroAnchor2, stepDriftCheck, stepSmoothing,
    stepSanity, stepDistance, motionThreshold, accelDriftRate, sortAsc,
    insertSorted, max_def, min_def, abs]

/-- C2 witness: the monotonicity theorem applied to the freshly
constructed state at a concrete tick (on which the snap cannot fire). -/
theorem updateMetrics_distance_monotone_witness :
    initialState.distance ≤ (updateMetrics initialState 3 true 50).distance ∧
      ((updateMetrics initialState 3 true 50).velocity ≤ 1/2 →
        (updateMetrics initialState 3 true 50).distance =
          initialState.distance) :=
  updateMetrics_distance_monotone initialState 3 true 50
    (fun hc => by norm_num [driftSnapFires, initialState] at hc)

/-! ### Claim C3: the forced-zero (hard anchor) tick -/

/-- C3: on any accelerometer tick that reaches the stationary check
(positive dt, no 0.5 s gap) on which the updated stationary duration
exceeds 3 s and GPS is unreliable or reads below 0.5 m/s, the update
publishes speed 0, zeroes v_fused and v_accel, sets the uncertainty to
0.5, applies the bias re-calibration to the acceleration buffer,
records the timestamp, and neither integrates nor accumulates distance. -/
theorem updateMetrics_hard_zero (st : SpeedTracker) (fm : ℚ) (im : Bool)
    (ts : ℚ)
    (h1 : 0 < (ts - st.runStartTime) / 1000 - st.lastTimestamp)
    (h2 : (ts - st.runStartTime) / 1000 - st.lastTimestamp ≤ 1/2)
    (h3 : stationaryDurationNext st fm im
        (min ((ts - st.runStartTime) / 1000 - st.lastTimestamp) (1/10)) > 3)
    (h4 : ¬ gpsReliable st ts ∨ st.gpsSpeed < 1/2) :
    (updateMetrics st fm im ts).velocity = 0 ∧
    (updateMetrics st fm im ts).fusedSpeed = 0 ∧
    (updateMetrics st fm im ts).accelIntegratedSpeed = 0 ∧
    (updateMetrics st fm im ts).speedEstimateUncertainty = 1/2 ∧
    (updateMetrics st fm im ts).distance = st.distance ∧
    (updateMetrics st fm im ts).calibrationOffset =
      (recalibrateBias st).calibrationOffset ∧
    (updateMetrics st fm im ts).lastTimestamp =
      (ts - st.runStartTime) / 1000 := by
  rw [updateMetrics_hardZero_eq st fm im ts h1 (by linarith) h3 h4]
  refine ⟨?_, ?_, ?_, ?_, ?_, ?_, rfl⟩
  · dsimp only
    rw [recalibrateBias_velocity]
  · dsimp only
    rw [recalibrateBias_fusedSpeed]
  · dsimp only
    rw [recalibrateBias_accelIntegratedSpeed]
  · dsimp only
    rw [recalibrateBias_uncertainty]
  · dsimp only
    rw [recalibrateBias_distance]
  · dsimp only
    exact recalibrateBias_offset_congr _ _ rfl rfl

/-- C3 witness: a stationary tick (4 s stationary, no GPS) forces the
published speed to 0 and the uncertainty to 0.5. -/
theorem updateMetrics_hard_zero_witness :
    (updateMetrics witHardZeroState 0 false 50).velocity = 0 ∧
      (updateMetrics witHardZeroState 0 false 50).speedEstimateUncertainty =
        1/2 := by
  obtain ⟨a, b, c, d, e⟩ := updateMetrics_hard_zero witHardZeroState 0 false 50
    (by norm_num [witHardZeroState, initialState])
    (by norm_num [witHardZeroState, initialState])
    (by norm_num [witHardZeroState, initialState, stationaryDurationNext,
      motionThreshold, min_def])
    (Or.inl (by norm_num [gpsReliable, witHardZeroState, initialState]))
  exact ⟨a, d⟩

/-! ### Claim C5: the uncertainty lower bound -/

/-- C5 (amended): the scalar uncertainty stays strictly positive across
every GPS-fix Kalman update (for any positive reliability score, as
updateGpsReliability guarantees) and across every accelerometer tick.
The claimed floor 0.1 m/s does not exist in the code: the 0.1 in
max(sigma + sigma_gps, 0.1) only guards the Kalman-gain denominator, and
repeated fixes drive sigma below 0.1 (see the counterexample). -/
theorem uncertainty_positive :
    (∀ (st : SpeedTracker) (now : ℚ), 0 < st.speedEstimateUncertainty →
      0 < st.gpsReliabilityScore →
      0 < (performSensorFusion st now).speedEstimateUncertainty) ∧
    (∀ (st : SpeedTracker) (fm : ℚ) (im : Bool) (ts : ℚ),
      0 < st.speedEstimateUncertainty →
      0 < (updateMetrics st fm im ts).speedEstimateUncertainty) := by
  constructor
  · intro st now hs hr
    simp only [performSensorFusion]
    split_ifs with h1 h2
    · exact hs
    · norm_num
    · dsimp only
      have hu : 0 < max (1/2) (st.gpsAccuracy * (1/20)) /
          st.gpsReliabilityScore :=
        div_pos (lt_of_lt_of_le (by norm_num) (le_max_left _ _)) hr
      have hmaxpos : 0 < max (st.speedEstimateUncertainty +
          max (1/2) (st.gpsAccuracy * (1/20)) / st.gpsReliabilityScore)
          (1/10) :=
        lt_of_lt_of_le (by norm_num) (le_max_right _ _)
      have hK : st.speedEstimateUncertainty /
          max (st.speedEstimateUncertainty +
            max (1/2) (st.gpsAccuracy * (1/20)) / st.gpsReliabilityScore)
          (1/10) < 1 :=
        (div_lt_one hmaxpos).mpr
          (lt_of_lt_of_le (by linarith) (le_max_left _ _))
      exact mul_pos (by linarith) hs
  · intro st fm im ts hs
    by_cases hA : (ts - st.runStartTime) / 1000 - st.lastTimestamp ≤ 0
    · rw [updateMetrics_noop_eq st fm im ts hA]
      exact hs
    by_cases hB : (ts - st.runStartTime) / 1000 - st.lastTimestamp > 1/2
    · simp only [updateMetrics]
      rw [if_neg hA, if_pos hB]
      split_ifs with hg <;> norm_num
    by_cases hC : stationaryDurationNext st fm im
        (min ((ts - st.runStartTime) / 1000 - st.lastTimestamp) (1/10)) > 3 ∧
        (¬ gpsReliable st ts ∨ st.gpsSpeed < 1/2)
    · rw [updateMetrics_hardZero_eq st fm im ts (by linarith) hB hC.1 hC.2]
      dsimp only
      rw [recalibrateBias_uncertainty]
      norm_num
    · rw [updateMetrics_main_eq st fm im ts (by linarith) hB hC]
      dsimp only
      rw [tickPipeline, stepDistance_uncertainty, stepSanity_uncertainty,
        stepSmoothing_uncertainty, stepDriftCheck_uncertainty,
        stepZeroAnchor2_uncertainty, stepZeroAnchor1_uncertainty,
        stepPrimary_uncertainty]
      exact stepIntegrate_uncertainty_pos _ fm im _ hs
        (le_min (by linarith) (by norm_num))

/-- C5 counterexample: a GPS fix processed from sigma = 0.12 (above the
claimed floor) with reliability 1 and accuracy 5 leaves
sigma = 3/31 < 0.1, contradicting the invariant sigma >= 0.1. -/
theorem sigma_floor_counterexample :
    ¬ (1/10 ≤ (performSensorFusion cexSigmaState 2000).speedEstimateUncertainty) := by
  norm_num [performSensorFusion, cexSigmaState, initialState, accelDriftRate,
    max_def, min_def]

/-- C5 witness: positivity at concrete fusion and tick calls. -/
theorem uncertainty_positive_witness :
    0 < (performSensorFusion cexSigmaState 2000).speedEstimateUncertainty ∧
      0 < (updateMetrics initialState 3 true 50).speedEstimateUncertainty :=
  ⟨uncertainty_positive.1 cexSigmaState 2000 (by norm_num [cexSigmaState, initialState])
      (by norm_num [cexSigmaState, initialState]),
    uncertainty_positive.2 initialState 3 true 50
      (by norm_num [initialState])⟩

/-! ### Claim C4: GPS fixes pull the fused speed toward v_gps -/

/-- C4 (amended): a GPS fix processed with reliability 1 and accuracy 5
strictly decreases |v_fused - v_gps| provided the Kalman step actually
executes (prior fusion timestamp non-zero, positive dt), sigma > 0, the
fused and GPS speeds differ, and the consecutive-zero-GPS hard anchor
does not fire (with r = 1 the anchor fires exactly when the zero counter
is at least 3 and v_gps < 0.5). The gain is then
K = sigma / (sigma + 1/2), which lies in (0, 1). Unconditionally the
claim fails: when the anchor fires v_fused is forced to 0 and the
distance to v_gps can grow (see the counterexample); with v_fused =
v_gps or sigma = 0 the distance also cannot strictly decrease. -/
theorem performSensorFusion_contraction (st : SpeedTracker) (now : ℚ)
    (hlf : st.lastFusionTime ≠ 0)
    (hdt : 0 < (now - st.lastFusionTime) / 1000)
    (hr : st.gpsReliabilityScore = 1)
    (ha : st.gpsAccuracy = 5)
    (hs : 0 < st.speedEstimateUncertainty)
    (hne : st.fusedSpeed ≠ st.gpsSpeed)
    (hanchor : ¬ (3 ≤ st.consecutiveZeroGPS ∧ st.gpsSpeed < 1/2)) :
    |(performSensorFusion st now).fusedSpeed - st.gpsSpeed| <
      |st.fusedSpeed - st.gpsSpeed| := by
  simp only [performSensorFusion]
  rw [if_neg (not_or.mpr ⟨hlf, not_le.mpr hdt⟩)]
  rw [if_neg (fun hc => hanchor ⟨hc.1, hc.2.1⟩)]
  dsimp only
  rw [hr, ha]
  rw [show max (1/2 : ℚ) (5 * (1/20)) / 1 = 1/2 by norm_num [max_def]]
  rw [show max (st.speedEstimateUncertainty + 1/2) (1/10) =
    st.speedEstimateUncertainty + 1/2 from max_eq_left (by linarith)]
  have hK1 : st.speedEstimateUncertainty /
      (st.speedEstimateUncertainty + 1/2) < 1 :=
    (div_lt_one (by linarith)).mpr (by linarith)
  have hK0 : 0 < st.speedEstimateUncertainty /
      (st.speedEstimateUncertainty + 1/2) :=
    div_pos hs (by linarith)
  rw [show st.fusedSpeed + st.speedEstimateUncertainty /
        (st.speedEstimateUncertainty + 1/2) *
        (st.gpsSpeed - st.fusedSpeed) - st.gpsSpeed =
      (1 - st.speedEstimateUncertainty /
        (st.speedEstimateUncertainty + 1/2)) *
        (st.fusedSpeed - st.gpsSpeed) by ring]
  rw [abs_mul, abs_of_pos (by linarith)]
  have habs : 0 < |st.fusedSpeed - st.gpsSpeed| :=
    abs_pos.mpr (sub_ne_zero.mpr hne)
  nlinarith [habs, hK0, hK1]

/-- C4 counterexample: a fix with r = 1, a = 5, v_gps = 0.2 and three
consecutive near-zero readings fires the zero anchor, jumping v_fused
from 0.25 to 0, so |v_fused - v_gps| grows from 0.05 to 0.2 and the
claimed strict decrease fails. -/
theorem fusion_pull_counterexample :
    ¬ (|(performSensorFusion cexFusionAnchorState 2000).fusedSpeed -
          cexFusionAnchorState.gpsSpeed| <
        |cexFusionAnchorState.fusedSpeed - cexFusionAnchorState.gpsSpeed|) := by
  norm_num [performSensorFusion, cexFusionAnchorState, initialState,
    accelDriftRate, max_def, min_def, abs]

/-- C4 witness: the contraction theorem at a concrete fix. -/
theorem performSensorFusion_contraction_witness :
    |(performSensorFusion witFusionState 2000).fusedSpeed -
        witFusionState.gpsSpeed| <
      |witFusionState.fusedSpeed - witFusionState.gpsSpeed| :=
  performSensorFusion_contraction witFusionState 2000
    (by norm_num [witFusionState, initialState])
    (by norm_num [witFusionState, initialState])
    (by norm_num [witFusionState, initialState])
    (by norm_num [witFusionState, initialState])
    (by norm_num [witFusionState, initialState])
    (by norm_num [witFusionState, initialState])
    (by norm_num [witFusionState, initialState])

/-! ### Claim C6: initial calibration -/

/-- C6 (amended): finishCalibration sets the bias to the per-axis median
of the collected samples and marks the engine calibrated only when
STRICTLY MORE than 10 samples were collected; with 10 or fewer samples
the whole state is left untouched, so the engine is NOT marked
calibrated either. (The claim said at least 10 suffice and that the
engine is marked calibrated even with fewer samples; both parts fail on
the boundary, see the counterexample.) -/
theorem finishCalibration_spec (st : SpeedTracker) (data : List RawVec) :
    (10 < data.length →
      (finishCalibration st data).calibrationOffset =
        ⟨medianOfList (data.map (fun d => d.x)),
         medianOfList (data.map (fun d => d.y)),
         medianOfList (data.map (fun d => d.z))⟩ ∧
      (finishCalibration st data).isCalibrated = true) ∧
    (data.length ≤ 10 → finishCalibration st data = st) := by
  constructor
  · intro h
    simp only [finishCalibration, if_pos h]
    exact ⟨by trivial, by trivial⟩
  · intro h
    simp only [finishCalibration]
    rw [if_neg (by omega)]

/-- C6 counterexample: with exactly 10 samples of (1, 1, 1) the claim
predicts bias = (1, 1, 1) and calibrated = true, but the source requires
length > 10, so the bias stays (0, 0, 0) and the engine stays
uncalibrated. -/
theorem finishCalibration_ten_samples_counterexample :
    ¬ ((finishCalibration initialState cexTenSamples).isCalibrated = true ∧
        (finishCalibration initialState cexTenSamples).calibrationOffset =
          ⟨1, 1, 1⟩) := by
  norm_num [finishCalibration, cexTenSamples, initialState]

/-- C6 witness: 11 samples calibrate; an empty window changes nothing. -/
theorem finishCalibration_spec_witness :
    (finishCalibration initialState witCalibrationData).isCalibrated = true ∧
      finishCalibration initialState [] = initialState := by
  constructor
  · exact ((finishCalibration_spec initialState witCalibrationData).1
      (by norm_num [witCalibrationData])).2
  · exact (finishCalibration_spec initialState []).2 (by norm_num)

/-! ### Claim C7: the dt > 0.5 s gap tick -/

/-- C7 (amended): a tick with inter-tick gap above 0.5 s is discarded:
all three velocity estimates are reset to v_gps when gpsAvailable and
the reliability score exceeds 0.3 -- WITHOUT the freshness test
gpsAge < 2 s of the section 4.3 notion of reliable -- and to 0
otherwise; the smoothing buffer is cleared, sigma is set to 5, the
timestamp is recorded and no distance accumulates. -/
theorem updateMetrics_gap_reset (st : SpeedTracker) (fm : ℚ) (im : Bool)
    (ts : ℚ)
    (h : (ts - st.runStartTime) / 1000 - st.lastTimestamp > 1/2) :
    ((updateMetrics st fm im ts).velocity =
      if st.gpsAvailable = true ∧ 3/10 < st.gpsReliabilityScore
      then st.gpsSpeed else 0) ∧
    ((updateMetrics st fm im ts).fusedSpeed =
      if st.gpsAvailable = true ∧ 3/10 < st.gpsReliabilityScore
      then st.gpsSpeed else 0) ∧
    ((updateMetrics st fm im ts).accelIntegratedSpeed =
      if st.gpsAvailable = true ∧ 3/10 < st.gpsReliabilityScore
      then st.gpsSpeed else 0) ∧
    (updateMetrics st fm im ts).velocityBuffer = [] ∧
    (updateMetrics st fm im ts).speedEstimateUncertainty = 5 ∧
    (updateMetrics st fm im ts).lastTimestamp =
      (ts - st.runStartTime) / 1000 ∧
    (updateMetrics st fm im ts).distance = st.distance := by
  simp only [updateMetrics]
  rw [if_neg (by linarith), if_pos h]
  split_ifs with hg <;>
    exact ⟨by trivial, by trivial, by trivial, by trivial, by trivial,
      by trivial, by trivial⟩

/-- C7 counterexample: on a gap tick with a 20 s old GPS fix (hence not
reliable in the sense of section 4.3 used by the claim) but score 0.6,
the code still resets the velocity to the stale v_gps = 20 instead of
the claimed 0: the gap branch of line 783 omits the gpsAge < 2 test. -/
theorem gap_reset_stale_gps_counterexample :
    ¬ gpsReliable cexStaleGpsState 20000 ∧
      (updateMetrics cexStaleGpsState 1 false 20000).velocity = 20 := by
  constructor
  · norm_num [gpsReliable, cexStaleGpsState, initialState]
  · norm_num [updateMetrics, cexStaleGpsState, initialState]

/-- C7 witness: the gap-reset theorem at a concrete backgrounded tick. -/
theorem updateMetrics_gap_reset_witness :
    (updateMetrics witGapState 1 false 1000).speedEstimateUncertainty = 5 ∧
      (updateMetrics witGapState 1 false 1000).velocityBuffer = [] := by
  obtain ⟨a, b, c, d, e, f, g⟩ := updateMetrics_gap_reset witGapState 1 false
    1000 (by norm_num [witGapState, initialState])
  exact ⟨e, d⟩

/-! ### Claim C8: the magnitude filter -/

/-- C8 (amended): applyFiltering ALWAYS pushes the incoming magnitude
into the 20-entry ring buffer -- also when it is rejected as impulsive
noise (m > 5 * noise_threshold = 10), in which case the output is the
last accepted value; otherwise the output is the trimmed mean of the 10
most recent buffered magnitudes once at least 5 are buffered
(trimCount = floor(n * 0.05) = 0 for n <= 10, so no value is actually
trimmed), else the raw magnitude. The claim's assertion that a rejected
m is not pushed is false, see the counterexample. -/
theorem applyFiltering_spec (st : SpeedTracker) (v : RawVec) (m : ℚ) :
    (applyFiltering st v m).1.accelerationBuffer = pushedBuffer st v m ∧
    (m > 10 → (applyFiltering st v m).2.1 = st.lastValidAcceleration) ∧
    (m ≤ 10 → 5 ≤ (pushedBuffer st v m).length →
      (applyFiltering st v m).2.1 = trimmedMean
        (((pushedBuffer st v m).drop ((pushedBuffer st v m).length - 10)).map
          (fun e => e.magnitude))) ∧
    (m ≤ 10 → (pushedBuffer st v m).length < 5 →
      (applyFiltering st v m).2.1 = m) := by
  refine ⟨?_, ?_, ?_, ?_⟩
  · simp only [applyFiltering, noiseThreshold]
    split_ifs <;> rfl
  · intro hh
    simp only [applyFiltering, noiseThreshold]
    rw [if_pos (by linarith : m > 2 * 5)]
  · intro hh hl
    simp only [applyFiltering, noiseThreshold]
    rw [if_neg (by linarith : ¬ m > 2 * 5)]
    dsimp only
    rw [filteredMagnitudeOf, if_pos hl]
  · intro hh hl
    simp only [applyFiltering, noiseThreshold]
    rw [if_neg (by linarith : ¬ m > 2 * 5)]
    dsimp only
    rw [filteredMagnitudeOf, if_neg (by omega)]

/-! ### Claim C9: reset vs construction -/

/-- C9 (amended): confirmReset restores the speed estimates, both
distances and both uncertainties to their constructor values, but it
does NOT restore the rest of the exposed snapshot: moving, launched,
calibrated and the GPS reliability score keep their pre-reset values
(and gps_reliable keeps deriving from the untouched gpsLastUpdate /
gpsAvailable), so a reset engine does not generally equal a freshly
constructed one. -/
theorem confirmReset_spec (st : SpeedTracker) :
    (confirmReset st).velocity = initialState.velocity ∧
    (confirmReset st).distance = initialState.distance ∧
    (confirmReset st).fusedSpeed = initialState.fusedSpeed ∧
    (confirmReset st).accelIntegratedSpeed =
      initialState.accelIntegratedSpeed ∧
    (confirmReset st).speedEstimateUncertainty =
      initialState.speedEstimateUncertainty ∧
    (confirmReset st).accelSpeedUncertainty =
      initialState.accelSpeedUncertainty ∧
    (confirmReset st).gpsDistance = initialState.gpsDistance ∧
    (confirmReset st).isMoving = st.isMoving ∧
    (confirmReset st).launchDetected = st.launchDetected ∧
    (confirmReset st).isCalibrated = st.isCalibrated ∧
    (confirmReset st).gpsReliabilityScore = st.gpsReliabilityScore := by
  simp only [confirmReset, stopRun, initialState]
  split_ifs <;>
    exact ⟨by trivial, by trivial, by trivial, by trivial, by trivial,
      by trivial, by trivial, by trivial, by trivial, by trivial, by trivial⟩

/-- C9 counterexample: after a calibration (11 samples), confirmReset
leaves isCalibrated = true, so the post-reset snapshot differs from the
post-construction snapshot, contradicting the round-trip claim. -/
theorem confirmReset_keeps_calibrated_counterexample :
    ¬ (snapshot (confirmReset cexResetState) = snapshot initialState) := by
  norm_num [snapshot, confirmReset, stopRun, cexResetState, finishCalibration,
    initialState, Snapshot.mk.injEq]

/-! ### Claim C10: position-only GPS fixes refresh the freshness clock -/

/-- C10: a GPS fix whose speed is null or negative leaves gpsSpeed, the
reliability history and score, the consecutive-zero counter and the
whole fusion state untouched, yet it still sets gpsLastUpdate to the
current time and still accumulates gpsDistance from the fix position
(when a previous position exists, the run is active and the step
distance lies in (0, 100)); consequently any tick within the next 2 s
classifies the previously stored gpsSpeed as reliable on the strength of
this position-only fix (given gpsAvailable and score above 0.3). -/
theorem handleGPSUpdate_speed_invalid (calcDist : ℚ → ℚ → ℚ → ℚ → ℚ)
    (st : SpeedTracker) (fix : GpsFix) (now : ℚ)
    (h : fix.speed = none ∨ ∃ w, fix.speed = some w ∧ w < 0) :
    (handleGPSUpdate calcDist st fix now).gpsSpeed = st.gpsSpeed ∧
    (handleGPSUpdate calcDist st fix now).gpsSpeedHistory =
      st.gpsSpeedHistory ∧
    (handleGPSUpdate calcDist st fix now).gpsReliabilityScore =
      st.gpsReliabilityScore ∧
    (handleGPSUpdate calcDist st fix now).consecutiveZeroGPS =
      st.consecutiveZeroGPS ∧
    (handleGPSUpdate calcDist st fix now).fusedSpeed = st.fusedSpeed ∧
    (handleGPSUpdate calcDist st fix now).velocity = st.velocity ∧
    (handleGPSUpdate calcDist st fix now).speedEstimateUncertainty =
      st.speedEstimateUncertainty ∧
    (handleGPSUpdate calcDist st fix now).gpsLastUpdate = now ∧
    (∀ p, st.lastGpsPosition = some p → st.isRunning = true →
      0 < calcDist p.lat p.lon fix.latitude fix.longitude →
      calcDist p.lat p.lon fix.latitude fix.longitude < 100 →
      (handleGPSUpdate calcDist st fix now).gpsDistance =
        st.gpsDistance + calcDist p.lat p.lon fix.latitude fix.longitude) ∧
    (st.gpsAvailable = true → 3/10 < st.gpsReliabilityScore →
      ∀ ts, (ts - now) / 1000 < 2 →
        gpsReliable (handleGPSUpdate calcDist st fix now) ts) := by
  have hskip : ∀ s0 : SpeedTracker,
      (match fix.speed with
        | some w => if 0 ≤ w then handleGPSSpeedBlock s0 w now else s0
        | none => s0) = s0 := by
    intro s0
    rcases h with hn | ⟨w, hw, hneg⟩
    · rw [hn]
    · rw [hw]
      simp only [if_neg (not_le.mpr hneg)]
  rcases hps : st.lastGpsPosition with _ | p
  · simp only [handleGPSUpdate, hskip, hps]
    refine ⟨by trivial, by trivial, by trivial, by trivial,
        by trivial, by trivial, by trivial, by trivial, ?_, ?_⟩
    · intro q hq
      cases hq
    · intro hav hsc ts hts
      exact ⟨hav, hts, hsc⟩
  · simp only [handleGPSUpdate, hskip, hps]
    split_ifs with hrun hd
    · refine ⟨by trivial, by trivial, by trivial, by trivial,
        by trivial, by trivial, by trivial, by trivial, ?_, ?_⟩
      · intro q hq hrun2 h0 h100
        injection hq with hpq
        subst hpq
        rfl
      · intro hav hsc ts hts
        exact ⟨hav, hts, hsc⟩
    · refine ⟨by trivial, by trivial, by trivial, by trivial,
        by trivial, by trivial, by trivial, by trivial, ?_, ?_⟩
      · intro q hq hrun2 h0 h100
        injection hq with hpq
        subst hpq
        exact absurd ⟨h0, h100⟩ hd
      · intro hav hsc ts hts
        exact ⟨hav, hts, hsc⟩
    · refine ⟨by trivial, by trivial, by trivial, by trivial,
        by trivial, by trivial, by trivial, by trivial, ?_, ?_⟩
      · intro q hq hrun2 h0 h100
        exact absurd hrun2 hrun
      · intro hav hsc ts hts
        exact ⟨hav, hts, hsc⟩

/-- C10 witness: a null-speed fix on a running engine keeps
gpsSpeed = 9, stamps gpsLastUpdate, adds the 7 m step to gpsDistance and
leaves the stored speed counting as reliable 0.5 s later. -/
theorem handleGPSUpdate_speed_invalid_witness :
    (handleGPSUpdate witCalcDist witInvalidFixState witInvalidFix
        5000).gpsSpeed = witInvalidFixState.gpsSpeed ∧
      (handleGPSUpdate witCalcDist witInvalidFixState witInvalidFix
        5000).gpsLastUpdate = 5000 ∧
      (handleGPSUpdate witCalcDist witInvalidFixState witInvalidFix
        5000).gpsDistance = witInvalidFixState.gpsDistance + 7 ∧
      gpsReliable (handleGPSUpdate witCalcDist witInvalidFixState
        witInvalidFix 5000) 5500 := by
  obtain ⟨h1, h2, h3, h4, h5, h6, h7, h8, h9, h10⟩ :=
    handleGPSUpdate_speed_invalid witCalcDist witInvalidFixState witInvalidFix
      5000 (Or.inl rfl)
  exact ⟨h1, h8,
    h9 ⟨0, 0⟩ rfl rfl (by norm_num [witCalcDist]) (by norm_num [witCalcDist]),
    h10 rfl (by norm_num [witInvalidFixState, initialState]) 5500
      (by norm_num)⟩

/-- C8 counterexample: a rejected impulsive magnitude (m = 11 from the
sample (11, 0, 0), above the 10 m/s^2 noise cut) is still pushed into
the acceleration ring buffer, contradicting the claim that it is not. -/
theorem applyFiltering_push_counterexample :
    ¬ ((applyFiltering initialState ⟨11, 0, 0⟩ 11).1.accelerationBuffer =
        initialState.accelerationBuffer) := by
  norm_num [applyFiltering, pushedBuffer, noiseThreshold, initialState]

/-- C8 witness: an accepted magnitude on a short buffer passes through
unchanged. -/
theorem applyFiltering_spec_witness :
    (applyFiltering initialState ⟨3, 0, 0⟩ 3).2.1 = 3 :=
  (applyFiltering_spec initialState ⟨3, 0, 0⟩ 3).2.2.2 (by norm_num)
    (by norm_num [pushedBuffer, initialState])
